import Mathlib

/-
  Verification of the stress / fatigue calculation pipeline of Fat1.py
  (port hole on tube calculator).

  Modelling conventions (shallow embedding with real-number semantics):

  * Python floats are modelled as real numbers `ℝ`; float rounding, overflow
    and underflow are outside the model.
  * A Python value that is either `None` or the float NaN is modelled as
    `none : Option ℝ`.  The display layer of the app (`fmt`, Fat1.py:24-27)
    renders `None` and NaN identically as the placeholder glyph, so the two
    "not available" markers are observationally the same sentinel.
  * Statements that can raise a Python exception are modelled in an
    `Except PyErr` monad; `try`/`except` blocks are modelled by `tryFb`,
    which replaces any error by a fallback value.
  * Python's binary `**` on floats returns a COMPLEX number when the base is
    negative and the exponent is not integral (CPython float_pow); this is
    modelled by the `LifeVal.complexNum` constructor.
-/

namespace Fat1

open Classical

noncomputable section

/-- A Python numeric slot: `some x` is an ordinary (finite) float value,
`none` stands for the "not available" sentinel (`None` or NaN). -/
abbrev V := Option ℝ

/-- The Python exceptions that the arithmetic in Fat1.py can raise. -/
inductive PyErr where
  | zeroDivision : PyErr
  | domain : PyErr
  deriving DecidableEq

/-- The value finally stored in `life_cycles` (Fat1.py:126-131).  Besides an
ordinary float (`val`) and the "not available" sentinel (`navail`, covering
both `None` and NaN), Python's float power can produce a complex number
(`complexNum`) when a negative base is raised to a non-integral exponent. -/
inductive LifeVal where
  | navail : LifeVal
  | complexNum (z : ℂ) : LifeVal
  | val (x : ℝ) : LifeVal

/-- A Python `try: ... except Exception: fb` around an expression. -/
def tryFb {α : Type} (x : Except PyErr α) (fb : α) : α :=
  match x with
  | .ok v => v
  | .error _ => fb

/-- Python float division `a / b`, with its exception behaviour: dividing by
the exact float zero raises `ZeroDivisionError`; a NaN operand propagates NaN
(no exception). -/
def pydivE (a b : V) : Except PyErr V :=
  match b with
  | none => Except.ok none
  | some bv =>
      if bv = 0 then Except.error PyErr.zeroDivision
      else Except.ok (match a with
        | none => none
        | some av => some (av / bv))

/-- Python float division at call sites where the divisor is provably not the
exact zero (so no exception occurs); the zero branch is dead there and is
mapped to the sentinel.  `pydivE_eq_ok` relates the two. -/
def vdiv (a b : V) : V :=
  match a, b with
  | some av, some bv => if bv = 0 then none else some (av / bv)
  | _, _ => none

/-- NaN-propagating product with a plain float, Python `a * c`. -/
def vmul (a : V) (c : ℝ) : V := a.map (fun x => x * c)

/-- NaN-propagating sum, Python `a + b`. -/
def vadd (a b : V) : V :=
  match a, b with
  | some x, some y => some (x + y)
  | _, _ => none

/-- NaN-propagating difference, Python `a - b`. -/
def vsub (a b : V) : V :=
  match a, b with
  | some x, some y => some (x - y)
  | _, _ => none

/-- `safe_div` (Fat1.py:18-22):
`try: return a / b if b != 0 else fallback except Exception: return fallback`.
Note that for a NaN divisor the Python test `b != 0` is true and `a / NaN`
is NaN; both fallback values used in the script (`float("nan")` and `None`)
are the sentinel `none` of the model. -/
def safe_div (a b : V) : V :=
  tryFb (if b ≠ some 0 then pydivE a b else Except.ok none) none

/-- `math.sqrt` raises a domain error on negative arguments. -/
def sqrtE (x : ℝ) : Except PyErr ℝ :=
  if x < 0 then Except.error PyErr.domain else Except.ok (Real.sqrt x)

/-- `math.log10` raises a domain error on non-positive arguments. -/
def log10E (x : ℝ) : Except PyErr ℝ :=
  if x ≤ 0 then Except.error PyErr.domain else Except.ok (Real.logb 10 x)

/-- Python float power `x ** y` (CPython `float_pow`), real semantics, for
the operands that occur at the `life_cycles` site:
* `0.0 ** y` : `ZeroDivisionError` for `y < 0`, else `1.0` or `0.0`;
* a negative base with a non-integral exponent becomes a COMPLEX number
  (the principal complex power), not an exception;
* a negative base with an integral exponent gives the real power;
* a positive base gives the real power `exp (y * log x)`.
A NaN operand would give NaN (`navail`); with the nonzero real exponents
produced by the pipeline that branch is unreachable. -/
def pypowE (x y : V) : Except PyErr LifeVal :=
  match x, y with
  | some xv, some yv =>
      if xv = 0 then
        if yv < 0 then Except.error PyErr.zeroDivision
        else if yv = 0 then Except.ok (LifeVal.val 1)
        else Except.ok (LifeVal.val 0)
      else if xv < 0 then
        if ∃ n : ℤ, yv = (n : ℝ) then Except.ok (LifeVal.val (xv ^ yv))
        else Except.ok (LifeVal.complexNum ((xv : ℂ) ^ (yv : ℂ)))
      else Except.ok (LifeVal.val (xv ^ yv))
  | _, _ => Except.ok LifeVal.navail

/-- The input record: the three widget groups of Fat1.py:37-69.  All values
are unconstrained reals (the claims quantify over arbitrary real inputs). -/
structure Inputs where
  p : ℝ
  D : ℝ
  Do : ℝ
  d : ℝ
  dh : ℝ
  Sut : ℝ
  Syt : ℝ
  ka : ℝ
  kb : ℝ
  kc : ℝ
  kd : ℝ
  ke : ℝ
  kh : ℝ
  kl : ℝ
  km : ℝ

/-- `t = (Do - D) / 2.0` (Fat1.py:46). -/
def t (i : Inputs) : ℝ := (i.Do - i.D) / 2

/-- `Sh = safe_div(p * (t + 0.57 * D), 100.0 * t)` (Fat1.py:76). -/
def Sh (i : Inputs) : V :=
  safe_div (some (i.p * (t i + 0.57 * i.D))) (some (100 * t i))

/-- `Sl = safe_div(p * (D**2), 100.0 * (Do**2 - D**2))` (Fat1.py:79). -/
def Sl (i : Inputs) : V :=
  safe_div (some (i.p * i.D ^ 2)) (some (100 * (i.Do ^ 2 - i.D ^ 2)))

/-- `Sc_term = Sh**2 + Sl**2 - Sh * Sl` (Fat1.py:82); NaN-propagating. -/
def Sc_term (i : Inputs) : V :=
  match Sh i, Sl i with
  | some h, some l => some (h ^ 2 + l ^ 2 - h * l)
  | _, _ => none

/-- `Sc = math.sqrt(Sc_term) if Sc_term >= 0 else float("nan")` (Fat1.py:83)
as a function of the radicand; a NaN radicand fails the `>= 0` test. -/
def scFromTerm (v : V) : V :=
  match v with
  | some c => if 0 ≤ c then some (Real.sqrt c) else none
  | none => none

/-- `Sc` (Fat1.py:83). -/
def Sc (i : Inputs) : V := scFromTerm (Sc_term i)

/-- `Sa = safe_div(Sc, 2.0)` (Fat1.py:86). -/
def Sa (i : Inputs) : V := safe_div (Sc i) (some 2)

/-- `Sm = safe_div(Sc, 2.0)` (Fat1.py:87). -/
def Sm (i : Inputs) : V := safe_div (Sc i) (some 2)

/-- `Se = 0.5 * ka * kb * kc * kd * ke * kh * kl * km * Sut` (Fat1.py:90);
always an ordinary real. -/
def Se (i : Inputs) : ℝ :=
  0.5 * i.ka * i.kb * i.kc * i.kd * i.ke * i.kh * i.kl * i.km * i.Sut

/-- `Sp` (Fat1.py:93-98):
`den_perm = safe_div(1.0, Se, None)` is `None` exactly when `Se == 0`;
the guard is `den_perm is not None and Sm != 0 and Sut != 0` (a NaN `Sm`
passes the `!= 0` test and then makes the whole expression NaN);
inside, `den2 = Sa / (Sm * Sut)`, `denom = den_perm + den2`,
`Sp = safe_div(1.0, denom)`. -/
def Sp (i : Inputs) : V :=
  if Se i ≠ 0 ∧ Sm i ≠ some 0 ∧ i.Sut ≠ 0 then
    safe_div (some 1) (vadd (some (1 / Se i)) (vdiv (Sa i) (vmul (Sm i) i.Sut)))
  else none

/-- `Sq = safe_div(Sm, 1.0 - (Sa / Sut))` guarded by `Sut != 0`
(Fat1.py:100-103). -/
def Sq (i : Inputs) : V :=
  if i.Sut ≠ 0 then safe_div (Sm i) (vsub (some 1) (vdiv (Sa i) (some i.Sut)))
  else none

/-- `B = (log10(Se) - log10(0.9*Sut)) / 3` guarded by
`Se > 0 and 0.9 * Sut > 0` (Fat1.py:106-108). -/
def B (i : Inputs) : V :=
  if 0 < Se i ∧ 0 < 0.9 * i.Sut then
    some ((Real.logb 10 (Se i) - Real.logb 10 (0.9 * i.Sut)) / 3)
  else none

/-- `A = safe_div(Se, 10 ** (6.0 * B))` guarded by `B is not None`
(Fat1.py:111-113); the exponential is the real power `10 ^ (6 * b)`. -/
def A (i : Inputs) : V :=
  match B i with
  | some b => safe_div (some (Se i)) (some ((10 : ℝ) ^ (6 * b)))
  | none => none

/-- `static_fos = Sp / Sa` guarded by
`Sp is not None and Sa not in (None, 0)` (Fat1.py:116-118).  In Python a NaN
`Sp` or `Sa` passes its guard and only makes the quotient NaN; the model's
sentinel `none` covers both routes to "not available". -/
def static_fos (i : Inputs) : V :=
  if Sp i ≠ none ∧ Sa i ≠ none ∧ Sa i ≠ some 0 then vdiv (Sp i) (Sa i)
  else none

/-- `fatigue_fos = Sq / Sa` guarded by
`Sq is not None and Sa not in (None, 0)` (Fat1.py:121-123). -/
def fatigue_fos (i : Inputs) : V :=
  if Sq i ≠ none ∧ Sa i ≠ none ∧ Sa i ≠ some 0 then vdiv (Sq i) (Sa i)
  else none

/-- The body of the `try` at Fat1.py:128-131:
`life_cycles = (Sq / A) ** (1.0 / B)`, with the `except Exception` clause
turning any raised error into the NaN sentinel. -/
def lifeTry (sq a b : V) : LifeVal :=
  tryFb ((pydivE sq a).bind fun base =>
          (pydivE (some 1) b).bind fun e =>
            pypowE base e) LifeVal.navail

/-- `life_cycles` (Fat1.py:126-131), guard
`A not in (None, 0) and B not in (None, 0) and Sq not in (None,)`.
In Python a NaN `Sq` passes the guard and makes the power NaN; the model's
guard `Sq ≠ none` sends that case to `navail` directly — the same observable
sentinel. -/
def life_cycles (i : Inputs) : LifeVal :=
  if A i ≠ none ∧ A i ≠ some 0 ∧ B i ≠ none ∧ B i ≠ some 0 ∧ Sq i ≠ none then
    lifeTry (Sq i) (A i) (B i)
  else LifeVal.navail

/-- The complete result record of the pipeline: the fourteen derived fields
of Fat1.py:46-131. -/
structure Results where
  t : ℝ
  Sh : V
  Sl : V
  Sc : V
  Sa : V
  Sm : V
  Se : ℝ
  Sp : V
  Sq : V
  B : V
  A : V
  static_fos : V
  fatigue_fos : V
  life_cycles : LifeVal

/-- The calculation pipeline (Fat1.py:46-131) as a pure total function. -/
def compute (i : Inputs) : Results :=
  ⟨t i, Sh i, Sl i, Sc i, Sa i, Sm i, Se i, Sp i, Sq i, B i, A i,
   static_fos i, fatigue_fos i, life_cycles i⟩

/-- Exception-level model of the `Sc` statement: the guarded `math.sqrt`. -/
def scFromTermE (v : V) : Except PyErr V :=
  match v with
  | some c => if 0 ≤ c then Except.map some (sqrtE c) else Except.ok none
  | none => Except.ok none

/-- Exception-level `Sc` statement. -/
def ScE (i : Inputs) : Except PyErr V := scFromTermE (Sc_term i)

/-- Exception-level `Sp` block: the raw division `Sa / (Sm * Sut)` is a
possible raise point. -/
def SpE (i : Inputs) : Except PyErr V :=
  if Se i ≠ 0 ∧ Sm i ≠ some 0 ∧ i.Sut ≠ 0 then
    (pydivE (Sa i) (vmul (Sm i) i.Sut)).bind fun den2 =>
      Except.ok (safe_div (some 1) (vadd (some (1 / Se i)) den2))
  else Except.ok none

/-- Exception-level `Sq` block: the raw division `Sa / Sut` is a possible
raise point. -/
def SqE (i : Inputs) : Except PyErr V :=
  if i.Sut ≠ 0 then
    (pydivE (Sa i) (some i.Sut)).bind fun r =>
      Except.ok (safe_div (Sm i) (vsub (some 1) r))
  else Except.ok none

/-- Exception-level `B` block: the two `math.log10` calls can raise. -/
def BE (i : Inputs) : Except PyErr V :=
  if 0 < Se i ∧ 0 < 0.9 * i.Sut then
    (log10E (Se i)).bind fun l1 =>
      (log10E (0.9 * i.Sut)).bind fun l2 =>
        Except.ok (some ((l1 - l2) / 3))
  else Except.ok none

/-- Exception-level `static_fos` statement: the raw division `Sp / Sa`. -/
def static_fosE (i : Inputs) : Except PyErr V :=
  if Sp i ≠ none ∧ Sa i ≠ none ∧ Sa i ≠ some 0 then pydivE (Sp i) (Sa i)
  else Except.ok none

/-- Exception-level `fatigue_fos` statement: the raw division `Sq / Sa`. -/
def fatigue_fosE (i : Inputs) : Except PyErr V :=
  if Sq i ≠ none ∧ Sa i ≠ none ∧ Sa i ≠ some 0 then pydivE (Sq i) (Sa i)
  else Except.ok none

/-- The whole script body with every possible uncaught raise point made
explicit, in program order.  `safe_div` and the `life_cycles` statement carry
their own `try`/`except`, so they cannot abort; over real semantics the
power `10 ** (6.0 * B)` in `A` is total. -/
def computeE (i : Inputs) : Except PyErr Results :=
  (ScE i).bind fun sc =>
  (SpE i).bind fun sp =>
  (SqE i).bind fun sq =>
  (BE i).bind fun b =>
  (static_fosE i).bind fun stf =>
  (fatigue_fosE i).bind fun ftf =>
  Except.ok ⟨t i, Sh i, Sl i, sc, Sa i, Sm i, Se i, sp, sq, b, A i, stf, ftf,
             life_cycles i⟩

/-! ### Basic lemmas about the value operations -/

theorem safe_div_none_right (a : V) : safe_div a none = none := by
  have h : (none : V) ≠ some 0 := by simp
  rw [safe_div, if_pos h]
  rfl

theorem safe_div_zero_right (a : V) : safe_div a (some 0) = none := by
  rw [safe_div, if_neg (by simp)]
  rfl

theorem safe_div_some_some (a b : ℝ) (hb : b ≠ 0) :
    safe_div (some a) (some b) = some (a / b) := by
  rw [safe_div, if_pos (by simpa using hb), pydivE, if_neg hb]
  rfl

theorem safe_div_none_left (b : V) : safe_div none b = none := by
  match b with
  | none => exact safe_div_none_right none
  | some bv =>
      by_cases hb : bv = 0
      · rw [hb]; exact safe_div_zero_right none
      · rw [safe_div, if_pos (by simpa using hb), pydivE, if_neg hb]
        rfl

theorem pydivE_eq_ok (a b : V) (hb : b ≠ some 0) :
    pydivE a b = Except.ok (vdiv a b) := by
  match a, b with
  | none, none => rfl
  | some av, none => rfl
  | none, some bv =>
      have hbv : bv ≠ 0 := by simpa using hb
      rw [pydivE, if_neg hbv]
      rfl
  | some av, some bv =>
      have hbv : bv ≠ 0 := by simpa using hb
      rw [pydivE, if_neg hbv, vdiv, if_neg hbv]

theorem vdiv_some_some (a b : ℝ) (hb : b ≠ 0) :
    vdiv (some a) (some b) = some (a / b) := by
  rw [vdiv, if_neg hb]

theorem vdiv_none_right (a : V) : vdiv a none = none := by
  match a with
  | none => rfl
  | some av => rfl

theorem vdiv_none_left (b : V) : vdiv none b = none := rfl

/-! ### The exception-level statements never abort -/

theorem scFromTermE_ok (v : V) : scFromTermE v = Except.ok (scFromTerm v) := by
  match v with
  | none => rfl
  | some c =>
      by_cases h : 0 ≤ c
      · rw [scFromTermE, scFromTerm, if_pos h, if_pos h, sqrtE,
          if_neg (not_lt.mpr h)]
        rfl
      · rw [scFromTermE, scFromTerm, if_neg h, if_neg h]

theorem ScE_ok (i : Inputs) : ScE i = Except.ok (Sc i) := scFromTermE_ok _

theorem vmul_ne_zero (a : V) (c : ℝ) (ha : a ≠ some 0) (hc : c ≠ 0) :
    vmul a c ≠ some 0 := by
  match a with
  | none => simp [vmul]
  | some av =>
      have hav : av ≠ 0 := by simpa using ha
      simp [vmul, mul_ne_zero hav hc]

theorem SpE_ok (i : Inputs) : SpE i = Except.ok (Sp i) := by
  rw [SpE, Sp]
  by_cases hg : Se i ≠ 0 ∧ Sm i ≠ some 0 ∧ i.Sut ≠ 0
  · rw [if_pos hg, if_pos hg,
      pydivE_eq_ok _ _ (vmul_ne_zero _ _ hg.2.1 hg.2.2)]
    rfl
  · rw [if_neg hg, if_neg hg]

theorem SqE_ok (i : Inputs) : SqE i = Except.ok (Sq i) := by
  rw [SqE, Sq]
  by_cases hg : i.Sut ≠ 0
  · rw [if_pos hg, if_pos hg, pydivE_eq_ok _ _ (by simpa using hg)]
    rfl
  · rw [if_neg hg, if_neg hg]

theorem BE_ok (i : Inputs) : BE i = Except.ok (B i) := by
  rw [BE, B]
  by_cases hg : 0 < Se i ∧ 0 < 0.9 * i.Sut
  · rw [if_pos hg, if_pos hg, log10E, if_neg (not_le.mpr hg.1), log10E,
      if_neg (not_le.mpr hg.2)]
    rfl
  · rw [if_neg hg, if_neg hg]

theorem static_fosE_ok (i : Inputs) : static_fosE i = Except.ok (static_fos i) := by
  rw [static_fosE, static_fos]
  by_cases hg : Sp i ≠ none ∧ Sa i ≠ none ∧ Sa i ≠ some 0
  · rw [if_pos hg, if_pos hg, pydivE_eq_ok _ _ hg.2.2]
  · rw [if_neg hg, if_neg hg]

theorem fatigue_fosE_ok (i : Inputs) : fatigue_fosE i = Except.ok (fatigue_fos i) := by
  rw [fatigue_fosE, fatigue_fos]
  by_cases hg : Sq i ≠ none ∧ Sa i ≠ none ∧ Sa i ≠ some 0
  · rw [if_pos hg, if_pos hg, pydivE_eq_ok _ _ hg.2.2]
  · rw [if_neg hg, if_neg hg]

/-! ### Projections of the result record -/

theorem compute_t (i : Inputs) : (compute i).t = t i := rfl

theorem compute_Sh (i : Inputs) : (compute i).Sh = Sh i := rfl

theorem compute_Sl (i : Inputs) : (compute i).Sl = Sl i := rfl

theorem compute_Sc (i : Inputs) : (compute i).Sc = Sc i := rfl

theorem compute_Sa (i : Inputs) : (compute i).Sa = Sa i := rfl

theorem compute_Sm (i : Inputs) : (compute i).Sm = Sm i := rfl

theorem compute_Se (i : Inputs) : (compute i).Se = Se i := rfl

theorem compute_Sp (i : Inputs) : (compute i).Sp = Sp i := rfl

theorem compute_Sq (i : Inputs) : (compute i).Sq = Sq i := rfl

theorem compute_B (i : Inputs) : (compute i).B = B i := rfl

theorem compute_A (i : Inputs) : (compute i).A = A i := rfl

theorem compute_static (i : Inputs) : (compute i).static_fos = static_fos i := rfl

theorem compute_fatigue (i : Inputs) : (compute i).fatigue_fos = fatigue_fos i := rfl

theorem compute_life (i : Inputs) : (compute i).life_cycles = life_cycles i := rfl

/-- `Sa` and `Sm` are the same expression in the source (Fat1.py:86-87). -/
theorem Sm_eq_Sa (i : Inputs) : Sm i = Sa i := rfl

/-! ### Propagation of the sentinel through the pipeline -/

theorem Sc_none_of_Sh_none (i : Inputs) (h : Sh i = none) : Sc i = none := by
  rw [Sc, Sc_term, h]
  rfl

theorem Sa_none_of_Sc_none (i : Inputs) (h : Sc i = none) : Sa i = none := by
  rw [Sa, h, safe_div_none_left]

theorem Sp_none_of_Sa_none (i : Inputs) (h : Sa i = none) : Sp i = none := by
  rw [Sp]
  by_cases hg : Se i ≠ 0 ∧ Sm i ≠ some 0 ∧ i.Sut ≠ 0
  · rw [if_pos hg, h, vdiv_none_left]
    have hv : vadd (some (1 / Se i)) none = none := rfl
    rw [hv, safe_div_none_right]
  · rw [if_neg hg]

theorem Sq_none_of_Sa_none (i : Inputs) (h : Sa i = none) : Sq i = none := by
  rw [Sq]
  by_cases hg : i.Sut ≠ 0
  · rw [if_pos hg, Sm_eq_Sa, h, safe_div_none_left]
  · rw [if_neg hg]

theorem static_none_of_Sa_none (i : Inputs) (h : Sa i = none) :
    static_fos i = none := by
  rw [static_fos, if_neg]
  intro hg
  exact hg.2.1 h

theorem fatigue_none_of_Sa_none (i : Inputs) (h : Sa i = none) :
    fatigue_fos i = none := by
  rw [fatigue_fos, if_neg]
  intro hg
  exact hg.2.1 h

theorem life_navail_of_Sq_none (i : Inputs) (h : Sq i = none) :
    life_cycles i = LifeVal.navail := by
  rw [life_cycles, if_neg]
  intro hg
  exact hg.2.2.2.2 h

theorem A_none_of_B_none (i : Inputs) (h : B i = none) : A i = none := by
  rw [A, h]

theorem life_navail_of_B_none (i : Inputs) (h : B i = none) :
    life_cycles i = LifeVal.navail := by
  rw [life_cycles, if_neg]
  intro hg
  exact hg.2.2.1 h

/-- `B` is an ordinary value exactly under the guard of Fat1.py:107. -/
theorem B_isSome_iff (i : Inputs) :
    (B i).isSome ↔ (0 < Se i ∧ 0 < 0.9 * i.Sut) := by
  rw [B]
  by_cases hg : 0 < Se i ∧ 0 < 0.9 * i.Sut
  · rw [if_pos hg]
    simpa using hg
  · rw [if_neg hg]
    simpa using hg

/-- `A` is an ordinary value exactly when `B` is: the divisor
`10 ** (6.0 * B)` is a positive real, so `safe_div` never falls back. -/
theorem A_isSome_iff (i : Inputs) : (A i).isSome ↔ (B i).isSome := by
  rcases hB : B i with _ | b
  · simp [A, hB]
  · have hpow : ((10 : ℝ) ^ (6 * b)) ≠ 0 :=
      ne_of_gt (Real.rpow_pos_of_pos (by norm_num) _)
    simp [A, hB, safe_div_some_some _ _ hpow]

/-! ### Evaluation helpers for the logarithm and square root -/

theorem log_ten_ne_zero : Real.log 10 ≠ 0 :=
  ne_of_gt (Real.log_pos (by norm_num))

theorem logb_ten_zpow (n : ℤ) : Real.logb 10 ((10 : ℝ) ^ n) = n := by
  rw [Real.logb, Real.log_zpow, mul_div_assoc, div_self log_ten_ne_zero,
    mul_one]

theorem sqrt_of_sq (a c : ℝ) (ha : 0 ≤ a) (hc : c = a ^ 2) :
    Real.sqrt c = a := by
  rw [hc, Real.sqrt_sq ha]

/-! ### Claim theorems -/

/-- Claim C1: for every input record, the pipeline returns the complete
fourteen-field result record computed by `compute` (undefined fields being
the `none` / `navail` sentinel), and the exception-level model `computeE` of
the script never ends in an uncaught fault: every raise point is either
guarded or wrapped in a `try`. -/
theorem claim1_no_fault (i : Inputs) : computeE i = Except.ok (compute i) := by
  rw [computeE, ScE_ok, SpE_ok, SqE_ok, BE_ok, static_fosE_ok, fatigue_fosE_ok]
  rfl

/-- The nominal default inputs of the widgets (Fat1.py:39-69):
`p=207, D=75, Do=87, d=35, dh=9, Sut=60, Syt=50`,
`ka=0.75, kb=1, kc=0.814, kd=1, ke=1, kh=1, kl=0.85, km=1`. -/
def nominal : Inputs :=
  ⟨207, 75, 87, 35, 9, 60, 50, 0.75, 1, 0.814, 1, 1, 1, 0.85, 1⟩

theorem nominal_t : t nominal = 6 := by
  norm_num [t, nominal]

theorem nominal_Sh : Sh nominal = some (2691 / 160) := by
  rw [Sh, nominal_t, safe_div_some_some _ _ (by norm_num)]
  norm_num [nominal]

theorem nominal_Sl : Sl nominal = some (575 / 96) := by
  rw [Sl, safe_div_some_some _ _ (by norm_num [nominal])]
  norm_num [nominal]

theorem nominal_Sc_term : Sc_term nominal = some (50229079 / 230400) := by
  simp only [Sc_term, nominal_Sh, nominal_Sl]
  norm_num

theorem nominal_Sc : Sc nominal = some (Real.sqrt (50229079 / 230400)) := by
  rw [Sc, nominal_Sc_term, scFromTerm, if_pos (by norm_num)]

theorem nominal_Sa : Sa nominal = some (Real.sqrt (50229079 / 230400) / 2) := by
  rw [Sa, nominal_Sc, safe_div_some_some _ _ (by norm_num)]

theorem nominal_Se : Se nominal = 62271 / 4000 := by
  norm_num [Se, nominal]

theorem nominal_Sc_bounds :
    (14765 / 1000 : ℝ) < Real.sqrt (50229079 / 230400) ∧
      Real.sqrt (50229079 / 230400) < (14766 / 1000 : ℝ) := by
  constructor
  · rw [Real.lt_sqrt (by norm_num)]
    norm_num
  · rw [Real.sqrt_lt' (by norm_num)]
    norm_num

/-- Claim C2, counterexample: at the nominal defaults the pipeline produces
`Sh = 207*(6 + 0.57*75)/(100*6) = 16.81875`, which is NOT within `1e-6`
relative tolerance of the claimed value `15.87`. -/
theorem claim2_counterexample :
    (compute nominal).Sh = some (2691 / 160) ∧
      ¬ (|(2691 / 160 : ℝ) - 15.87| ≤ 1 / 1000000 * |(15.87 : ℝ)|) := by
  constructor
  · rw [compute_Sh, nominal_Sh]
  · rw [not_le]
    rw [show |(2691 / 160 : ℝ) - 15.87| = 2691 / 160 - 15.87 by
      rw [abs_of_pos]; norm_num]
    rw [show |(15.87 : ℝ)| = 15.87 by rw [abs_of_pos]; norm_num]
    norm_num

/-- Claim C2 (amended): at the nominal defaults the pipeline produces the
exact values `t = 6`, `Sh = 16.81875 = 2691/160`, `Sl = 575/96 ≈ 5.9896`,
`Sc = sqrt(50229079/230400) ≈ 14.765`, `Sa = Sm = Sc/2 ≈ 7.383` and
`Se = 15.56775 = 62271/4000`. -/
theorem claim2_nominal :
    (compute nominal).t = 6 ∧
      (compute nominal).Sh = some (2691 / 160) ∧
      (compute nominal).Sl = some (575 / 96) ∧
      (compute nominal).Sc = some (Real.sqrt (50229079 / 230400)) ∧
      (compute nominal).Sa = some (Real.sqrt (50229079 / 230400) / 2) ∧
      (compute nominal).Sm = some (Real.sqrt (50229079 / 230400) / 2) ∧
      (compute nominal).Se = 62271 / 4000 ∧
      (14765 / 1000 : ℝ) < Real.sqrt (50229079 / 230400) ∧
      Real.sqrt (50229079 / 230400) < (14766 / 1000 : ℝ) := by
  refine ⟨nominal_t, nominal_Sh, nominal_Sl, nominal_Sc, nominal_Sa, ?_,
    nominal_Se, nominal_Sc_bounds.1, nominal_Sc_bounds.2⟩
  rw [compute_Sm, Sm_eq_Sa]
  exact nominal_Sa

/-- Claim C10: whenever `Sh` and `Sl` are both ordinary values, the radicand
`Sh^2 + Sl^2 - Sh*Sl` is nonnegative (it equals `(Sh - Sl/2)^2 + 3*Sl^2/4`),
so the negative-radicand branch of Fat1.py:83 is unreachable and `Sc` is
defined. -/
theorem claim10_radicand (i : Inputs) (h l : ℝ)
    (hh : (compute i).Sh = some h) (hl : (compute i).Sl = some l) :
    0 ≤ h ^ 2 + l ^ 2 - h * l ∧
      (compute i).Sc = some (Real.sqrt (h ^ 2 + l ^ 2 - h * l)) := by
  rw [compute_Sh] at hh
  rw [compute_Sl] at hl
  have hnn : 0 ≤ h ^ 2 + l ^ 2 - h * l := by
    nlinarith [sq_nonneg (h - l / 2), sq_nonneg l]
  refine ⟨hnn, ?_⟩
  rw [compute_Sc, Sc]
  have hterm : Sc_term i = some (h ^ 2 + l ^ 2 - h * l) := by
    rw [Sc_term, hh, hl]
  rw [hterm, scFromTerm, if_pos hnn]

/-- Witness for C10 at the nominal defaults. -/
theorem claim10_radicand_witness :
    0 ≤ (2691 / 160 : ℝ) ^ 2 + (575 / 96 : ℝ) ^ 2 - 2691 / 160 * (575 / 96) ∧
      (compute nominal).Sc =
        some (Real.sqrt
          ((2691 / 160 : ℝ) ^ 2 + (575 / 96 : ℝ) ^ 2 - 2691 / 160 * (575 / 96))) :=
  claim10_radicand nominal (2691 / 160) (575 / 96)
    (by rw [compute_Sh]; exact nominal_Sh)
    (by rw [compute_Sl]; exact nominal_Sl)

/-- Claim C9: the pipeline is a deterministic pure function — two runs on
identical input records return identical result records. -/
theorem claim9_deterministic (i1 i2 : Inputs) (h : i1 = i2) :
    compute i1 = compute i2 := by
  rw [h]

/-- Witness for C9 at the nominal defaults. -/
theorem claim9_deterministic_witness : compute nominal = compute nominal :=
  claim9_deterministic nominal nominal rfl

/-- Claim C8: the inputs `d` (rod diameter), `dh` (port hole diameter) and
`Syt` (yield strength) are never consumed by any formula: two input records
differing only in those three fields produce identical result records. -/
theorem claim8_unused_inputs
    (p D Do Sut ka kb kc kd ke kh kl km d1 dh1 Syt1 d2 dh2 Syt2 : ℝ) :
    compute ⟨p, D, Do, d1, dh1, Sut, Syt1, ka, kb, kc, kd, ke, kh, kl, km⟩ =
      compute ⟨p, D, Do, d2, dh2, Sut, Syt2, ka, kb, kc, kd, ke, kh, kl, km⟩ :=
  rfl

theorem fatigue_none_of_Sq_none (i : Inputs) (h : Sq i = none) :
    fatigue_fos i = none := by
  rw [fatigue_fos, if_neg]
  intro hg
  exact hg.1 h

/-- The nominal defaults with the outer diameter lowered to the bore:
`Do = D = 75`. -/
def doEqD : Inputs :=
  ⟨207, 75, 75, 35, 9, 60, 50, 0.75, 1, 0.814, 1, 1, 1, 0.85, 1⟩

/-- Claim C3, counterexample: with `Do == D` the denominator
`100*(Do^2 - D^2)` of `Sl` is also zero, so `Sl` is NOT an ordinary value,
contrary to the claim that `Sl` remains defined. -/
theorem claim3_counterexample :
    doEqD.Do = doEqD.D ∧ (compute doEqD).Sl = none := by
  refine ⟨rfl, ?_⟩
  rw [compute_Sl, Sl,
    show (100 * (doEqD.Do ^ 2 - doEqD.D ^ 2) : ℝ) = 0 by norm_num [doEqD]]
  exact safe_div_zero_right _

/-- Claim C3 (amended): for every input with `Do == D` the cascade of
"not available" reaches exactly `Sh, Sl, Sc, Sa, Sm, Sp, Sq, static_fos,
fatigue_fos, life_cycles`; `t` and `Se` are plain values, and `B` and `A`
are ordinary values exactly when `Se > 0` and `0.9*Sut > 0`. -/
theorem claim3_cascade (i : Inputs) (h : i.Do = i.D) :
    (compute i).Sh = none ∧ (compute i).Sl = none ∧ (compute i).Sc = none ∧
      (compute i).Sa = none ∧ (compute i).Sm = none ∧ (compute i).Sp = none ∧
      (compute i).Sq = none ∧ (compute i).static_fos = none ∧
      (compute i).fatigue_fos = none ∧
      (compute i).life_cycles = LifeVal.navail ∧
      ((compute i).B.isSome ↔ (0 < (compute i).Se ∧ 0 < 0.9 * i.Sut)) ∧
      ((compute i).A.isSome ↔ (0 < (compute i).Se ∧ 0 < 0.9 * i.Sut)) := by
  have ht : t i = 0 := by rw [t, h]; ring
  have hSh : Sh i = none := by
    rw [Sh, ht, show (100 : ℝ) * 0 = 0 by ring]
    exact safe_div_zero_right _
  have hSl : Sl i = none := by
    rw [Sl, h, show (100 * (i.D ^ 2 - i.D ^ 2) : ℝ) = 0 by ring]
    exact safe_div_zero_right _
  have hSc : Sc i = none := Sc_none_of_Sh_none i hSh
  have hSa : Sa i = none := Sa_none_of_Sc_none i hSc
  have hSq : Sq i = none := Sq_none_of_Sa_none i hSa
  refine ⟨hSh, hSl, hSc, hSa, ?_, Sp_none_of_Sa_none i hSa, hSq,
    static_none_of_Sa_none i hSa, fatigue_none_of_Sa_none i hSa,
    life_navail_of_Sq_none i hSq, ?_, ?_⟩
  · rw [compute_Sm, Sm_eq_Sa]
    exact hSa
  · rw [compute_B, compute_Se]
    exact B_isSome_iff i
  · rw [compute_A, compute_Se]
    exact (A_isSome_iff i).trans (B_isSome_iff i)

/-- Witness for C3 at the defaults with `Do` set to `D = 75`. -/
theorem claim3_cascade_witness :
    (compute doEqD).Sh = none ∧ (compute doEqD).Sl = none ∧
      (compute doEqD).Sc = none ∧ (compute doEqD).Sa = none ∧
      (compute doEqD).Sm = none ∧ (compute doEqD).Sp = none ∧
      (compute doEqD).Sq = none ∧ (compute doEqD).static_fos = none ∧
      (compute doEqD).fatigue_fos = none ∧
      (compute doEqD).life_cycles = LifeVal.navail ∧
      ((compute doEqD).B.isSome ↔
        (0 < (compute doEqD).Se ∧ 0 < 0.9 * doEqD.Sut)) ∧
      ((compute doEqD).A.isSome ↔
        (0 < (compute doEqD).Se ∧ 0 < 0.9 * doEqD.Sut)) :=
  claim3_cascade doEqD rfl

/-- Claim C5: `B` is an ordinary value when and only when `Se > 0` and
`0.9*Sut > 0`; otherwise `B` is the sentinel and then `A` and `life_cycles`
are also the sentinel. -/
theorem claim5_B_guard (i : Inputs) :
    ((compute i).B.isSome ↔ (0 < (compute i).Se ∧ 0 < 0.9 * i.Sut)) ∧
      ((compute i).B = none →
        (compute i).A = none ∧ (compute i).life_cycles = LifeVal.navail) := by
  constructor
  · rw [compute_B, compute_Se]
    exact B_isSome_iff i
  · intro hB
    rw [compute_B] at hB
    exact ⟨by rw [compute_A]; exact A_none_of_B_none i hB,
      by rw [compute_life]; exact life_navail_of_B_none i hB⟩

/-- The nominal defaults with the surface factor slider at `ka = 0`,
so `Se = 0`. -/
def zeroK : Inputs :=
  ⟨207, 75, 87, 35, 9, 60, 50, 0, 1, 0.814, 1, 1, 1, 0.85, 1⟩

/-- Witness for C5: with `ka = 0` the endurance limit is `Se = 0`, so `B`,
`A` and `life_cycles` are all the sentinel. -/
theorem claim5_B_guard_witness :
    (compute zeroK).B = none ∧ (compute zeroK).A = none ∧
      (compute zeroK).life_cycles = LifeVal.navail := by
  have h := claim5_B_guard zeroK
  have hSe : (compute zeroK).Se = 0 := by
    rw [compute_Se]
    norm_num [Se, zeroK]
  have hB : (compute zeroK).B = none := by
    rcases hcase : (compute zeroK).B with _ | b
    · rfl
    · exfalso
      have hs : ((compute zeroK).B).isSome := by rw [hcase]; rfl
      have h0 := (h.1.mp hs).1
      rw [hSe] at h0
      exact absurd h0 (lt_irrefl 0)
  exact ⟨hB, (h.2 hB).1, (h.2 hB).2⟩

/-- Claim C6: if the computed `Sa` equals `Sut` exactly, the denominator
`1 - Sa/Sut` of `Sq` is exactly zero (or `Sut = 0` and the guard fails), so
`Sq` is the sentinel — not an infinity — and `fatigue_fos` and `life_cycles`
are the sentinel as well. -/
theorem claim6_Sa_eq_Sut (i : Inputs) (h : (compute i).Sa = some i.Sut) :
    (compute i).Sq = none ∧ (compute i).fatigue_fos = none ∧
      (compute i).life_cycles = LifeVal.navail := by
  rw [compute_Sa] at h
  have hSq : Sq i = none := by
    by_cases hSut : i.Sut = 0
    · rw [Sq, if_neg (by simp [hSut])]
    · rw [Sq, if_pos hSut, h, vdiv_some_some _ _ hSut, div_self hSut,
        show vsub (some 1) (some (1 : ℝ)) = some 0 by norm_num [vsub]]
      exact safe_div_zero_right _
  exact ⟨by rw [compute_Sq]; exact hSq,
    by rw [compute_fatigue]; exact fatigue_none_of_Sq_none i hSq,
    by rw [compute_life]; exact life_navail_of_Sq_none i hSq⟩

/-- Inputs with `p = 200, D = 0, Do = 10, Sut = 1` and all K-factors `1`:
here `Sh = 2`, `Sl = 0`, `Sc = 2` and `Sa = 1 = Sut`. -/
def w6 : Inputs := ⟨200, 0, 10, 35, 9, 1, 50, 1, 1, 1, 1, 1, 1, 1, 1⟩

theorem w6_t : t w6 = 5 := by
  norm_num [t, w6]

theorem w6_Sh : Sh w6 = some 2 := by
  rw [Sh, w6_t, safe_div_some_some _ _ (by norm_num)]
  norm_num [w6]

theorem w6_Sl : Sl w6 = some 0 := by
  rw [Sl, safe_div_some_some _ _ (by norm_num [w6])]
  norm_num [w6]

theorem w6_Sc_term : Sc_term w6 = some 4 := by
  simp only [Sc_term, w6_Sh, w6_Sl]
  norm_num

theorem w6_Sc : Sc w6 = some 2 := by
  rw [Sc, w6_Sc_term, scFromTerm, if_pos (by norm_num),
    sqrt_of_sq 2 4 (by norm_num) (by norm_num)]

theorem w6_Sa : Sa w6 = some 1 := by
  rw [Sa, w6_Sc, safe_div_some_some _ _ (by norm_num)]
  norm_num

/-- Witness for C6 at `w6`, where `Sa = 1 = Sut` exactly. -/
theorem claim6_Sa_eq_Sut_witness :
    (compute w6).Sq = none ∧ (compute w6).fatigue_fos = none ∧
      (compute w6).life_cycles = LifeVal.navail :=
  claim6_Sa_eq_Sut w6 (by rw [compute_Sa, w6_Sa]; norm_num [w6])

/-! ### Order on optional values, for the monotonicity claim -/

/-- Absolute value, NaN-propagating. -/
def oabs (v : V) : V := v.map (fun x => |x|)

/-- Strict order on optional values; undefined operands compare false. -/
def oLt : V → V → Prop
  | some a, some b => a < b
  | _, _ => False

theorem oLt_some (x y : ℝ) : oLt (some x) (some y) ↔ x < y := Iff.rfl

theorem oLt_oabs_some (x y : ℝ) :
    oLt (oabs (some x)) (oabs (some y)) ↔ |x| < |y| := Iff.rfl

theorem abs_mul_lt (a b k : ℝ) (h0 : 0 ≤ a) (hab : a < b) (hk : 0 < k) :
    |a * k| < |b * k| := by
  rw [abs_of_nonneg (mul_nonneg h0 hk.le),
    abs_of_nonneg (mul_nonneg (le_trans h0 hab.le) hk.le)]
  exact mul_lt_mul_of_pos_right hab hk

theorem Sh_val (i : Inputs) (h : (100 : ℝ) * t i ≠ 0) :
    Sh i = some (i.p * ((t i + 0.57 * i.D) / (100 * t i))) := by
  rw [Sh, safe_div_some_some _ _ h, mul_div_assoc]

theorem Sl_val (i : Inputs) (h : (100 : ℝ) * (i.Do ^ 2 - i.D ^ 2) ≠ 0) :
    Sl i = some (i.p * (i.D ^ 2 / (100 * (i.Do ^ 2 - i.D ^ 2)))) := by
  rw [Sl, safe_div_some_some _ _ h, mul_div_assoc]

/-- Two records, identical except for a lower pressure `p = -1` vs `p = 0`,
with `t = 6 > 0` and `Do > D` — but `D = 0` and the smaller `p` negative. -/
def decP1 : Inputs := ⟨-1, 0, 12, 35, 9, 60, 50, 0.75, 1, 0.814, 1, 1, 1, 0.85, 1⟩

/-- The same record as `decP1` with the larger pressure `p = 0`. -/
def decP2 : Inputs := ⟨0, 0, 12, 35, 9, 60, 50, 0.75, 1, 0.814, 1, 1, 1, 0.85, 1⟩

/-- Claim C7, counterexample: for a pair identical except `p`, with `t > 0`
and `Do > D`, the record with the larger `p` need NOT have strictly larger
`|Sh|` or `|Sl|`: with `p = -1` vs `p = 0` the magnitude of `Sh` drops to
zero, and with `D = 0` both `Sl` are zero. -/
theorem claim7_counterexample :
    decP1.p < decP2.p ∧ 0 < t decP1 ∧ decP1.D < decP1.Do ∧
      ¬ oLt (oabs ((compute decP1).Sh)) (oabs ((compute decP2).Sh)) ∧
      ¬ oLt (oabs ((compute decP1).Sl)) (oabs ((compute decP2).Sl)) := by
  have ht1 : t decP1 = 6 := by norm_num [t, decP1]
  have ht2 : t decP2 = 6 := by norm_num [t, decP2]
  have h1 : Sh decP1 = some (-(1 / 100)) := by
    rw [Sh, ht1, safe_div_some_some _ _ (by norm_num)]
    norm_num [decP1]
  have h2 : Sh decP2 = some 0 := by
    rw [Sh, ht2, safe_div_some_some _ _ (by norm_num)]
    norm_num [decP2]
  have h3 : Sl decP1 = some 0 := by
    rw [Sl, safe_div_some_some _ _ (by norm_num [decP1])]
    norm_num [decP1]
  have h4 : Sl decP2 = some 0 := by
    rw [Sl, safe_div_some_some _ _ (by norm_num [decP2])]
    norm_num [decP2]
  refine ⟨by norm_num [decP1, decP2], by rw [ht1]; norm_num,
    by norm_num [decP1], ?_, ?_⟩
  · rw [compute_Sh, compute_Sh, h1, h2, oLt_oabs_some,
      show |(-(1 / 100) : ℝ)| = 1 / 100 by
        rw [abs_neg]; exact abs_of_nonneg (by norm_num),
      abs_zero]
    norm_num
  · rw [compute_Sl, compute_Sl, h3, h4, oLt_oabs_some, abs_zero]
    exact lt_irrefl 0

/-- Claim C7 (amended): for two records identical except for the pressure,
with `0 ≤ p₁ < p₂`, `D > 0` and `Do > D`, the record with the larger
pressure has strictly larger `|Sh|` and `|Sl|` and a strictly larger `Sc`. -/
theorem claim7_monotone (i1 i2 : Inputs)
    (hp0 : 0 ≤ i1.p) (hp : i1.p < i2.p)
    (hD : 0 < i1.D) (hDo : i1.D < i1.Do)
    (hD2 : i2.D = i1.D) (hDo2 : i2.Do = i1.Do) (_hd2 : i2.d = i1.d)
    (_hdh2 : i2.dh = i1.dh) (_hSut2 : i2.Sut = i1.Sut)
    (_hSyt2 : i2.Syt = i1.Syt) (_hka2 : i2.ka = i1.ka)
    (_hkb2 : i2.kb = i1.kb) (_hkc2 : i2.kc = i1.kc) (_hkd2 : i2.kd = i1.kd)
    (_hke2 : i2.ke = i1.ke) (_hkh2 : i2.kh = i1.kh) (_hkl2 : i2.kl = i1.kl)
    (_hkm2 : i2.km = i1.km) :
    oLt (oabs ((compute i1).Sh)) (oabs ((compute i2).Sh)) ∧
      oLt (oabs ((compute i1).Sl)) (oabs ((compute i2).Sl)) ∧
      oLt ((compute i1).Sc) ((compute i2).Sc) := by
  have htpos : 0 < t i1 := by rw [t]; linarith
  have hden1 : (100 : ℝ) * t i1 ≠ 0 := ne_of_gt (by linarith)
  have ht2 : t i2 = t i1 := by rw [t, t, hD2, hDo2]
  have hu : 0 < (t i1 + 0.57 * i1.D) / (100 * t i1) :=
    div_pos (by linarith) (by linarith)
  have hSh1 := Sh_val i1 hden1
  have hSh2 := Sh_val i2 (by rw [ht2]; exact hden1)
  rw [ht2, hD2] at hSh2
  have hsqpos : 0 < 100 * (i1.Do ^ 2 - i1.D ^ 2) := by nlinarith
  have hden2 : (100 : ℝ) * (i1.Do ^ 2 - i1.D ^ 2) ≠ 0 := ne_of_gt hsqpos
  have hv : 0 < i1.D ^ 2 / (100 * (i1.Do ^ 2 - i1.D ^ 2)) :=
    div_pos (pow_pos hD 2) hsqpos
  have hSl1 := Sl_val i1 hden2
  have hSl2 := Sl_val i2 (by rw [hD2, hDo2]; exact hden2)
  rw [hD2, hDo2] at hSl2
  have hp20 : 0 ≤ i2.p := le_trans hp0 hp.le
  refine ⟨?_, ?_, ?_⟩
  · rw [compute_Sh, compute_Sh, hSh1, hSh2, oLt_oabs_some]
    exact abs_mul_lt _ _ _ hp0 hp hu
  · rw [compute_Sl, compute_Sl, hSl1, hSl2, oLt_oabs_some]
    exact abs_mul_lt _ _ _ hp0 hp hv
  · have hK : 0 < ((t i1 + 0.57 * i1.D) / (100 * t i1)) ^ 2 +
        (i1.D ^ 2 / (100 * (i1.Do ^ 2 - i1.D ^ 2))) ^ 2 -
        ((t i1 + 0.57 * i1.D) / (100 * t i1)) *
          (i1.D ^ 2 / (100 * (i1.Do ^ 2 - i1.D ^ 2))) := by
      nlinarith [sq_nonneg ((t i1 + 0.57 * i1.D) / (100 * t i1) -
        i1.D ^ 2 / (100 * (i1.Do ^ 2 - i1.D ^ 2)) / 2), mul_pos hv hv]
    have hterm : ∀ (i : Inputs) (hSh : Sh i = some (i.p *
          ((t i1 + 0.57 * i1.D) / (100 * t i1))))
        (hSl : Sl i = some (i.p *
          (i1.D ^ 2 / (100 * (i1.Do ^ 2 - i1.D ^ 2))))),
        Sc i = some (Real.sqrt (i.p ^ 2 *
          (((t i1 + 0.57 * i1.D) / (100 * t i1)) ^ 2 +
            (i1.D ^ 2 / (100 * (i1.Do ^ 2 - i1.D ^ 2))) ^ 2 -
            ((t i1 + 0.57 * i1.D) / (100 * t i1)) *
              (i1.D ^ 2 / (100 * (i1.Do ^ 2 - i1.D ^ 2)))))) := by
      intro i hSh hSl
      have hterm2 : Sc_term i = some (i.p ^ 2 *
          (((t i1 + 0.57 * i1.D) / (100 * t i1)) ^ 2 +
            (i1.D ^ 2 / (100 * (i1.Do ^ 2 - i1.D ^ 2))) ^ 2 -
            ((t i1 + 0.57 * i1.D) / (100 * t i1)) *
              (i1.D ^ 2 / (100 * (i1.Do ^ 2 - i1.D ^ 2))))) := by
        rw [Sc_term, hSh, hSl]
        ring_nf
      rw [Sc, hterm2, scFromTerm,
        if_pos (mul_nonneg (sq_nonneg _) hK.le)]
    rw [compute_Sc, compute_Sc, hterm i1 hSh1 hSl1, hterm i2 hSh2 hSl2,
      oLt_some]
    exact Real.sqrt_lt_sqrt (mul_nonneg (sq_nonneg _) hK.le)
      (mul_lt_mul_of_pos_right (by nlinarith) hK)

/-- The nominal defaults with the pressure raised to `208`. -/
def nominalP208 : Inputs :=
  ⟨208, 75, 87, 35, 9, 60, 50, 0.75, 1, 0.814, 1, 1, 1, 0.85, 1⟩

/-- Witness for C7 at the nominal defaults versus the same record with
`p = 208`. -/
theorem claim7_monotone_witness :
    oLt (oabs ((compute nominal).Sh)) (oabs ((compute nominalP208).Sh)) ∧
      oLt (oabs ((compute nominal).Sl)) (oabs ((compute nominalP208).Sl)) ∧
      oLt ((compute nominal).Sc) ((compute nominalP208).Sc) :=
  claim7_monotone nominal nominalP208
    (by norm_num [nominal]) (by norm_num [nominal, nominalP208])
    (by norm_num [nominal]) (by norm_num [nominal])
    rfl rfl rfl rfl rfl rfl rfl rfl rfl rfl rfl rfl rfl rfl

theorem exceptBind_ok {α β : Type} (x : α) (f : α → Except PyErr β) :
    (Except.ok x : Except PyErr α).bind f = f x := rfl

/-- Inputs `p=600, D=0, Do=2, Sut=1, ka=0.018`, remaining K-factors `1`:
here `Sa = 3 > Sut`, so `Sq = -3/2 < 0`, while `B = -2/3` and `A = 90`, so
the life-cycle power has the negative base `-1/60` and the fractional
exponent `-3/2`. -/
def fi4 : Inputs := ⟨600, 0, 2, 35, 9, 1, 50, 0.018, 1, 1, 1, 1, 1, 1, 1⟩

theorem fi4_t : t fi4 = 1 := by
  norm_num [t, fi4]

theorem fi4_Sh : Sh fi4 = some 6 := by
  rw [Sh, fi4_t, safe_div_some_some _ _ (by norm_num)]
  norm_num [fi4]

theorem fi4_Sl : Sl fi4 = some 0 := by
  rw [Sl, safe_div_some_some _ _ (by norm_num [fi4])]
  norm_num [fi4]

theorem fi4_Sc_term : Sc_term fi4 = some 36 := by
  simp only [Sc_term, fi4_Sh, fi4_Sl]
  norm_num

theorem fi4_Sc : Sc fi4 = some 6 := by
  rw [Sc, fi4_Sc_term, scFromTerm, if_pos (by norm_num),
    sqrt_of_sq 6 36 (by norm_num) (by norm_num)]

theorem fi4_Sa : Sa fi4 = some 3 := by
  rw [Sa, fi4_Sc, safe_div_some_some _ _ (by norm_num)]
  norm_num

theorem fi4_Se : Se fi4 = 9 / 1000 := by
  norm_num [Se, fi4]

theorem fi4_Sq : Sq fi4 = some (-(3 / 2)) := by
  rw [Sq, if_pos (show fi4.Sut ≠ 0 by norm_num [fi4]), Sm_eq_Sa, fi4_Sa,
    show fi4.Sut = 1 by norm_num [fi4], vdiv_some_some _ _ one_ne_zero,
    show ((3 : ℝ) / 1) = 3 by norm_num,
    show vsub (some 1) (some (3 : ℝ)) = some (-2) by norm_num [vsub],
    safe_div_some_some _ _ (by norm_num)]
  norm_num

theorem fi4_B : B fi4 = some (-(2 / 3)) := by
  rw [B, if_pos ⟨by rw [fi4_Se]; norm_num, by norm_num [fi4]⟩, fi4_Se,
    show (0.9 * fi4.Sut : ℝ) = 0.9 by norm_num [fi4],
    ← Real.logb_div (by norm_num) (by norm_num),
    show ((9 / 1000 : ℝ) / 0.9) = (10 : ℝ) ^ (-2 : ℤ) by norm_num,
    logb_ten_zpow]
  norm_num

theorem fi4_A : A fi4 = some 90 := by
  simp only [A, fi4_B]
  rw [fi4_Se, show (6 * -(2 / 3) : ℝ) = ((-4 : ℤ) : ℝ) by push_cast; norm_num,
    Real.rpow_intCast, show ((10 : ℝ) ^ (-4 : ℤ)) = 1 / 10000 by norm_num,
    safe_div_some_some _ _ (by norm_num)]
  norm_num

theorem not_exists_int_neg_three_halves :
    ¬ ∃ n : ℤ, (-(3 / 2) : ℝ) = (n : ℝ) := by
  rintro ⟨n, hn⟩
  have h2 : ((2 * n : ℤ) : ℝ) = ((-3 : ℤ) : ℝ) := by push_cast; linarith
  have h3 : (2 * n : ℤ) = -3 := Int.cast_injective h2
  omega

theorem fi4_life :
    life_cycles fi4 =
      LifeVal.complexNum (((-(1 / 60) : ℝ) : ℂ) ^ ((-(3 / 2) : ℝ) : ℂ)) := by
  rw [life_cycles, if_pos ⟨by rw [fi4_A]; simp, by rw [fi4_A]; norm_num,
    by rw [fi4_B]; simp, by rw [fi4_B]; norm_num,
    by rw [fi4_Sq]; simp⟩]
  rw [lifeTry, fi4_Sq, fi4_A, fi4_B, pydivE_eq_ok _ _ (by norm_num),
    vdiv_some_some _ _ (by norm_num),
    show ((-(3 / 2) : ℝ) / 90) = -(1 / 60) by norm_num, exceptBind_ok,
    pydivE_eq_ok _ _ (by norm_num), vdiv_some_some _ _ (by norm_num),
    show ((1 : ℝ) / (-(2 / 3))) = -(3 / 2) by norm_num, exceptBind_ok,
    pypowE, if_neg (show ¬((-(1 / 60) : ℝ) = 0) by norm_num),
    if_pos (show (-(1 / 60) : ℝ) < 0 by norm_num),
    if_neg not_exists_int_neg_three_halves]
  rfl

/-- Claim C4: at `fi4` the guard of Fat1.py:127 passes with the negative
base `Sq/A = -1/60` and the fractional exponent `1/B = -3/2`, and Python's
float power then returns a COMPLEX number (CPython float_pow: negative
numbers raised to fractional powers become complex), which is stored in
`life_cycles`; the `except` clause never fires, so the promised
"not available" sentinel is NOT produced. -/
theorem claim4_complex_leak :
    (compute fi4).Sq = some (-(3 / 2)) ∧ (compute fi4).A = some 90 ∧
      (compute fi4).B = some (-(2 / 3)) ∧
      (compute fi4).life_cycles =
        LifeVal.complexNum (((-(1 / 60) : ℝ) : ℂ) ^ ((-(3 / 2) : ℝ) : ℂ)) ∧
      (compute fi4).life_cycles ≠ LifeVal.navail := by
  refine ⟨by rw [compute_Sq]; exact fi4_Sq, by rw [compute_A]; exact fi4_A,
    by rw [compute_B]; exact fi4_B, by rw [compute_life]; exact fi4_life, ?_⟩
  rw [compute_life, fi4_life]
  intro hc
  exact LifeVal.noConfusion hc

end

end Fat1
